import Mathlib

/-!
Verification of the Iris monitor engine: a shallow embedding of the
repository's change detector (monitor.py), durable store (storage.py),
handle normalization (scraper.py) and the dashboard actions that drive
them (app.py), with theorems settling the specified properties.

Python dictionary values that flow through snapshots and events are
modelled by the inductive type `Val` (absent/None, integer, string,
boolean); machine-level concerns (floats, unicode digit classes) are out
of scope of the embedding, which covers the ASCII fragment the program
manipulates.
-/

/-- A Python value as it appears in profile/snapshot dictionaries:
`None`, an `int`, a `str` or a `bool`. -/
inductive Val where
  | vNone
  | vInt (z : Int)
  | vStr (s : String)
  | vBool (b : Bool)
deriving DecidableEq, Repr

/-- Python truthiness (`bool(value)`): `None`, `0` and `""` are falsy. -/
def truthy : Val → Bool
  | .vNone => false
  | .vInt z => z != 0
  | .vStr s => s != ""
  | .vBool b => b

/-- Python `==` between dictionary values: same-type comparison plus the
numeric equality `True == 1`, `False == 0`; cross-type otherwise false. -/
def pyEq : Val → Val → Bool
  | .vNone, .vNone => true
  | .vInt a, .vInt b => a == b
  | .vStr a, .vStr b => a == b
  | .vBool a, .vBool b => a == b
  | .vBool a, .vInt b => (if a then (1 : Int) else 0) == b
  | .vInt a, .vBool b => a == (if b then (1 : Int) else 0)
  | _, _ => false

/-- Python `str(...)` of a dictionary value. -/
def pyStr : Val → String
  | .vNone => "None"
  | .vInt z => toString z
  | .vStr s => s
  | .vBool b => if b then "True" else "False"

/-- ASCII whitespace stripped by Python's `str.strip()` / `int(str)`. -/
def isPyWhitespace (c : Char) : Bool :=
  c == ' ' || c == '\t' || c == '\n' || c == '\r' ||
    c == Char.ofNat 11 || c == Char.ofNat 12

/-- `str.lower()` on one ASCII character. -/
def pyCharLower (c : Char) : Char :=
  if 'A' ≤ c && c ≤ 'Z' then Char.ofNat (c.toNat + 32) else c

/-- Python `str.lower()` (ASCII fragment). -/
def pyLower (s : String) : String :=
  String.mk (s.toList.map pyCharLower)

/-- Digit run of a Python integer literal after the sign: digits with
single underscores allowed between digits, accumulating the value. -/
def digitsCore : List Char → Nat → Option Nat
  | [], acc => some acc
  | ['_'], _ => none
  | '_' :: c :: rest, acc =>
      if c.isDigit then digitsCore rest (acc * 10 + (c.toNat - 48)) else none
  | c :: rest, acc =>
      if c.isDigit then digitsCore rest (acc * 10 + (c.toNat - 48)) else none

/-- Nonempty digit run (no leading underscore). -/
def parseDigits : List Char → Option Nat
  | [] => none
  | c :: rest => if c.isDigit then digitsCore rest (c.toNat - 48) else none

/-- Python `int(s)` for a string: strip whitespace, optional sign, digits
with underscore separators; `ValueError` (here `none`) otherwise. -/
def pyIntOfString (s : String) : Option Int :=
  let cs := ((s.toList.dropWhile isPyWhitespace).reverse.dropWhile isPyWhitespace).reverse
  match cs with
  | '+' :: rest => (parseDigits rest).map (fun n => Int.ofNat n)
  | '-' :: rest => (parseDigits rest).map (fun n => -(Int.ofNat n))
  | rest => (parseDigits rest).map (fun n => Int.ofNat n)

/-- `_as_int` from monitor.py (identical to `_to_int` in storage.py):
`None` maps to `None`, otherwise `int(value)` with `TypeError`/`ValueError`
caught; `int(True) = 1`, `int(False) = 0`. -/
def as_int : Val → Option Int
  | .vNone => none
  | .vInt z => some z
  | .vBool b => some (if b then 1 else 0)
  | .vStr s => pyIntOfString s

/-- The tracked fields of a profile/snapshot dictionary as the change
detector reads them (`.get(field)`, default `None`). -/
structure Snap where
  followers : Val
  following : Val
  likes : Val
  videosCount : Val
  nickname : Val
  bio : Val
  verified : Val
deriving DecidableEq, Repr

/-- `dict.get(field)` on a snapshot dictionary: unknown keys give `None`. -/
def Snap.get (s : Snap) : String → Val
  | "followers" => s.followers
  | "following" => s.following
  | "likes" => s.likes
  | "videos_count" => s.videosCount
  | "nickname" => s.nickname
  | "bio" => s.bio
  | "verified" => s.verified
  | _ => .vNone

/-- `NUMERIC_FIELDS` from monitor.py. -/
def NUMERIC_FIELDS : List String := ["followers", "following", "likes", "videos_count"]

/-- `TEXT_FIELDS` from monitor.py. -/
def TEXT_FIELDS : List String := ["nickname", "bio"]

/-- `BOOLEAN_FIELDS` from monitor.py. -/
def BOOLEAN_FIELDS : List String := ["verified"]

/-- One detected change, as the event dictionary built by
`detect_profile_changes`. -/
structure Event where
  metric : String
  old_value : Val
  new_value : Val
  delta : Option Int
  message : String
deriving DecidableEq, Repr

/-- Python `f"{d:+d}"`: explicit sign on non-negative integers. -/
def pySigned (d : Int) : String :=
  if d < 0 then toString d else "+" ++ toString d

/-- Body of the `NUMERIC_FIELDS` loop of `detect_profile_changes`: the
event appended for `field`, if any. -/
def numeric_event (prev cur : Snap) (field : String) : Option Event :=
  match as_int (prev.get field), as_int (cur.get field) with
  | some a, some b =>
      if a == b then none
      else
        let d := b - a
        let ds := pySigned d
        some { metric := field, old_value := .vInt a, new_value := .vInt b,
               delta := some d,
               message := s!"{field} changed from {a} to {b} ({ds})." }
  | _, _ => none

/-- Body of the `TEXT_FIELDS` loop of `detect_profile_changes`. -/
def text_event (prev cur : Snap) (field : String) : Option Event :=
  let ov := prev.get field
  let nv := cur.get field
  if pyEq ov nv then none
  else some { metric := field, old_value := ov, new_value := nv,
              delta := none, message := s!"{field} changed." }

/-- Body of the `BOOLEAN_FIELDS` loop of `detect_profile_changes`: both
sides coerced with `bool(...)`. -/
def bool_event (prev cur : Snap) (field : String) : Option Event :=
  let ov := truthy (prev.get field)
  let nv := truthy (cur.get field)
  if ov == nv then none
  else
    let os := pyStr (.vBool ov)
    let ns := pyStr (.vBool nv)
    some { metric := field, old_value := .vBool ov, new_value := .vBool nv,
           delta := none, message := s!"{field} changed from {os} to {ns}." }

/-- `detect_profile_changes(previous, current)` from monitor.py: empty on
a missing baseline, otherwise the per-field events in the fixed order
numeric, text, boolean. -/
def detect_profile_changes (previous : Option Snap) (current : Snap) : List Event :=
  match previous with
  | none => []
  | some prev =>
      NUMERIC_FIELDS.filterMap (numeric_event prev current)
        ++ TEXT_FIELDS.filterMap (text_event prev current)
        ++ BOOLEAN_FIELDS.filterMap (bool_event prev current)

example : as_int (.vStr "1_000") = some 1000 := by decide
example : as_int (.vStr " 42 ") = some 42 := by decide
example : as_int (.vStr "12.5") = none := by decide
example : as_int (.vStr "-7") = some (-7) := by decide
example : as_int (.vStr "") = none := by decide
example : as_int (.vBool true) = some 1 := by decide
example :
    detect_profile_changes
      (some { followers := .vInt 100, following := .vInt 5, likes := .vInt 9,
              videosCount := .vInt 3, nickname := .vStr "n", bio := .vStr "b",
              verified := .vInt 0 })
      { followers := .vInt 150, following := .vInt 5, likes := .vInt 9,
        videosCount := .vInt 3, nickname := .vStr "n", bio := .vStr "b",
        verified := .vInt 0 }
      = [{ metric := "followers", old_value := .vInt 100, new_value := .vInt 150,
           delta := some 50,
           message := "followers changed from 100 to 150 (+50)." }] := by decide

/-! ## Durable store (storage.py)

The SQLite tables become lists of rows; `AUTOINCREMENT` ids become
explicit counters that survive deletes, matching `sqlite_sequence`.
Each store method is one state transition; the Python `with conn` block
commits the method's statements as one transaction, so a method being a
single Lean function models its atomicity. Timestamps produced by
`utc_now_iso()` inside a method are passed in as a `now` argument. -/

/-- A `watch_accounts` row: `username` is the primary key, `active` the
0/1 activation flag. -/
structure AccountRow where
  username : String
  created_at : String
  active : Bool
  last_checked_at : Option String
  last_error : Option String
deriving DecidableEq, Repr

/-- A `snapshots` row, with columns as `save_snapshot` writes them. -/
structure SnapshotRow where
  id : Nat
  username : String
  checked_at : String
  nickname : Val
  bio : Val
  verified : Bool
  followers : Option Int
  following : Option Int
  likes : Option Int
  videosCount : Option Int
  profile_url : Val
deriving DecidableEq, Repr

/-- An `events` row, with columns as `record_events` writes them. -/
structure EventRow where
  id : Nat
  username : String
  detected_at : String
  old_value : Option String
  new_value : Option String
  metric : String
  delta : Option Int
  message : String
deriving DecidableEq, Repr

/-- A `failures` row. -/
structure FailureRow where
  id : Nat
  username : String
  checked_at : String
  error : String
deriving DecidableEq, Repr

/-- A `settings` row. -/
structure SettingRow where
  key : String
  value : String
  updated_at : String
deriving DecidableEq, Repr

/-- The whole database owned by `MonitorStore`: the five tables plus the
`AUTOINCREMENT` counters of the three id-keyed tables. -/
structure StoreState where
  watch_accounts : List AccountRow
  snapshots : List SnapshotRow
  events : List EventRow
  failures : List FailureRow
  settings : List SettingRow
  next_snapshot_id : Nat
  next_event_id : Nat
  next_failure_id : Nat
deriving DecidableEq, Repr

/-- The `INSERT ... ON CONFLICT(username) DO NOTHING` statement shared by
`save_snapshot` and `record_failure`: registers the handle as active only
when no row exists yet. -/
def insertWatchIgnore (now username : String) (rows : List AccountRow) : List AccountRow :=
  if rows.any (fun r => r.username == username) then rows
  else rows ++ [{ username := username, created_at := now, active := true,
                  last_checked_at := none, last_error := none }]

/-- The `UPDATE watch_accounts SET last_checked_at = ?, last_error = ?`
statement shared by `save_snapshot` (error `NULL`) and `record_failure`. -/
def updateWatchChecked (now : String) (err : Option String) (username : String)
    (rows : List AccountRow) : List AccountRow :=
  rows.map (fun r =>
    if r.username == username then { r with last_checked_at := some now, last_error := err }
    else r)

/-- `MonitorStore.add_watch_account`: upsert that sets `active = 1`
whether the row is new or pre-existing (`ON CONFLICT ... DO UPDATE`). -/
def add_watch_account (now username : String) (st : StoreState) : StoreState :=
  if st.watch_accounts.any (fun r => r.username == username) then
    { st with watch_accounts :=
        st.watch_accounts.map (fun r =>
          if r.username == username then { r with active := true } else r) }
  else
    { st with watch_accounts :=
        st.watch_accounts ++ [{ username := username, created_at := now, active := true,
                                last_checked_at := none, last_error := none }] }

/-- `MonitorStore.deactivate_watch_account`: `UPDATE ... SET active = 0
WHERE username = ?`, returning `cursor.rowcount > 0`. SQLite's
`changes()` counts every row matched by an `UPDATE`'s `WHERE` clause,
including rows whose values were already equal to the assigned ones, so
the returned flag is exactly "a row with this username exists". -/
def deactivate_watch_account (username : String) (st : StoreState) : Bool × StoreState :=
  (st.watch_accounts.any (fun r => r.username == username),
   { st with watch_accounts :=
       st.watch_accounts.map (fun r =>
         if r.username == username then { r with active := false } else r) })

/-- Stable insertion sort by case-insensitive username, modelling
`ORDER BY username COLLATE NOCASE ASC`. -/
def insertNocase (row : AccountRow) : List AccountRow → List AccountRow
  | [] => [row]
  | r :: rest =>
      if pyLower row.username ≤ pyLower r.username then row :: r :: rest
      else r :: insertNocase row rest

/-- Sort backing `list_watch_accounts`. -/
def sortNocase (rows : List AccountRow) : List AccountRow :=
  rows.foldr insertNocase []

/-- `MonitorStore.list_watch_accounts`: the registry rows, optionally
restricted to `active = 1`, ordered by username case-insensitively. -/
def list_watch_accounts (active_only : Bool) (st : StoreState) : List AccountRow :=
  sortNocase (if active_only then st.watch_accounts.filter (fun r => r.active) else st.watch_accounts)

/-- `ORDER BY id DESC LIMIT 1` over an id-keyed table: the row of
greatest id, if any. -/
def maxIdRow (rows : List SnapshotRow) : Option SnapshotRow :=
  rows.foldl (fun acc r =>
    match acc with
    | none => some r
    | some a => if a.id ≤ r.id then some r else some a) none

/-- `MonitorStore.get_latest_snapshot`. -/
def get_latest_snapshot (username : String) (st : StoreState) : Option SnapshotRow :=
  maxIdRow (st.snapshots.filter (fun r => r.username == username))

/-- The profile dictionary returned by `fetch_tiktok_profile`:
`username` is a string (`save_snapshot` applies `str(...)`), the other
fields arbitrary payload values. `recent_videos` never reaches the
store and is omitted. -/
structure Profile where
  username : String
  nickname : Val
  bio : Val
  verified : Val
  followers : Val
  following : Val
  likes : Val
  videosCount : Val
  profile_url : Val
deriving DecidableEq, Repr

/-- The view of a fetched profile that `detect_profile_changes` reads. -/
def Profile.toSnap (p : Profile) : Snap :=
  { followers := p.followers, following := p.following, likes := p.likes,
    videosCount := p.videosCount, nickname := p.nickname, bio := p.bio,
    verified := p.verified }

/-- The view of a stored snapshot row that `detect_profile_changes`
reads on the next check: nullable `INTEGER` columns come back as `None`
or `int`, the `verified` column as `0`/`1`. -/
def SnapshotRow.toSnap (r : SnapshotRow) : Snap :=
  { followers := match r.followers with | none => .vNone | some z => .vInt z,
    following := match r.following with | none => .vNone | some z => .vInt z,
    likes := match r.likes with | none => .vNone | some z => .vInt z,
    videosCount := match r.videosCount with | none => .vNone | some z => .vInt z,
    nickname := r.nickname, bio := r.bio,
    verified := .vInt (if r.verified then 1 else 0) }

/-- `MonitorStore.save_snapshot`: one transaction that (1) inserts the
registry row if absent (`DO NOTHING`), (2) appends the snapshot row with
`checked_at` at write time, numeric fields through `_to_int`, `verified`
through truthiness and a defaulted profile url, and (3) sets the
registry's `last_checked_at` and clears `last_error`. -/
def save_snapshot (now : String) (profile : Profile) (st : StoreState) : StoreState :=
  let username := profile.username
  let accounts1 := insertWatchIgnore now username st.watch_accounts
  let row : SnapshotRow :=
    { id := st.next_snapshot_id, username := username, checked_at := now,
      nickname := profile.nickname, bio := profile.bio,
      verified := truthy profile.verified,
      followers := as_int profile.followers,
      following := as_int profile.following,
      likes := as_int profile.likes,
      videosCount := as_int profile.videosCount,
      profile_url :=
        if truthy profile.profile_url then profile.profile_url
        else .vStr s!"https://www.tiktok.com/@{username}" }
  { st with
      watch_accounts := updateWatchChecked now none username accounts1,
      snapshots := st.snapshots ++ [row],
      next_snapshot_id := st.next_snapshot_id + 1 }

/-- One `events` row as `record_events` serializes an event dictionary:
`old_value`/`new_value` through `str(...)` unless `None`, `delta`
through `_to_int`. -/
def eventToRow (id : Nat) (username detected_at : String) (e : Event) : EventRow :=
  { id := id, username := username, detected_at := detected_at,
    metric := e.metric,
    old_value := if e.old_value == .vNone then none else some (pyStr e.old_value),
    new_value := if e.new_value == .vNone then none else some (pyStr e.new_value),
    delta := e.delta,
    message := e.message }

/-- Row list appended by `record_events`, ids ascending from the
counter. -/
def eventRowsFrom (id : Nat) (username detected_at : String) : List Event → List EventRow
  | [] => []
  | e :: rest => eventToRow id username detected_at e :: eventRowsFrom (id + 1) username detected_at rest

/-- `MonitorStore.record_events`: early return on an empty list,
otherwise one timestamp for the batch and an `executemany` insert. -/
def record_events (now : String) (username : String) (events : List Event)
    (st : StoreState) : StoreState :=
  if events.isEmpty then st
  else
    { st with
        events := st.events ++ eventRowsFrom st.next_event_id username now events,
        next_event_id := st.next_event_id + events.length }

/-- `MonitorStore.record_failure`: one transaction that registers the
handle if absent, appends the failure row, and sets the registry's
`last_checked_at` and `last_error`. -/
def record_failure (now : String) (username error : String) (st : StoreState) : StoreState :=
  let accounts1 := insertWatchIgnore now username st.watch_accounts
  { st with
      watch_accounts := updateWatchChecked now (some error) username accounts1,
      failures := st.failures ++ [{ id := st.next_failure_id, username := username,
                                    checked_at := now, error := error }],
      next_failure_id := st.next_failure_id + 1 }

/-- `MonitorStore.get_setting`. -/
def get_setting (key : String) (st : StoreState) : Option String :=
  (st.settings.find? (fun r => r.key == key)).map (fun r => r.value)

/-- `MonitorStore.clear_monitor_data`: deletes every row of the four
monitor tables; the `settings` table and the id sequences are untouched. -/
def clear_monitor_data (st : StoreState) : StoreState :=
  { st with watch_accounts := [], snapshots := [], events := [], failures := [] }

/-! ## Handle normalization (scraper.py) -/

/-- Characters accepted by the handle pattern `[A-Za-z0-9._]`. -/
def isHandleChar (c : Char) : Bool :=
  c.isAlphanum || c == '.' || c == '_'

/-- `re.fullmatch(r"[A-Za-z0-9._]{2,24}", s)` as a Boolean. -/
def fullmatchHandle (s : String) : Bool :=
  2 ≤ s.length && s.length ≤ 24 && s.toList.all isHandleChar

/-- `str.strip()`: surrounding whitespace removed. -/
def pyStrip (s : String) : String :=
  String.mk (((s.toList.dropWhile isPyWhitespace).reverse.dropWhile isPyWhitespace).reverse)

/-- `str.lstrip("@")`: every leading `@` removed. -/
def pyLstripAt (s : String) : String :=
  String.mk (s.toList.dropWhile (fun c => c == '@'))

/-- `normalize_username` from scraper.py: strip whitespace, drop all
leading `@`s, lowercase; accept exactly the strings matching the handle
pattern, otherwise raise `TikTokScrapeError` (modelled as `Except.error`
carrying the message). -/
def normalize_username (username : String) : Except String String :=
  let normalized := pyLower (pyLstripAt (pyStrip username))
  if fullmatchHandle normalized then Except.ok normalized
  else Except.error "Please enter a valid TikTok username."

/-! ## Monitor service (monitor.py) -/

/-- Outcome of one `fetch_tiktok_profile` call as `check_account`
distinguishes it: a profile, a `TikTokScrapeError` (with `str(exc)`), or
any other exception (with class name and text). -/
inductive FetchResult where
  | ok (profile : Profile)
  | scrapeError (msg : String)
  | unexpected (cls msg : String)
deriving DecidableEq, Repr

/-- The error text `check_account` records for a fetch failure:
`str(exc)` for a classified error, `f"{cls}: {msg}"` otherwise. -/
def fetchErrorText : FetchResult → Option String
  | .ok _ => none
  | .scrapeError msg => some msg
  | .unexpected cls msg => some s!"{cls}: {msg}"

/-- `TikTokMonitorService.check_account`, with the external fetcher and
the clock passed in (`clock k` is the value of the k-th `utc_now_iso()`
call; the returned index is the next unused tick). Reads the previous
snapshot, fetches; on failure records a failure and returns `False`; on
success saves the snapshot, detects changes against the previous row and
records the events under the fetched profile's handle. -/
def check_account (fetch : String → FetchResult) (clock : Nat → String) (k : Nat)
    (username : String) (st : StoreState) : Bool × StoreState × Nat :=
  let previous := get_latest_snapshot username st
  match fetch username with
  | .scrapeError msg => (false, record_failure (clock k) username msg st, k + 1)
  | .unexpected cls msg => (false, record_failure (clock k) username s!"{cls}: {msg}" st, k + 1)
  | .ok profile =>
      let st1 := save_snapshot (clock k) profile st
      let events := detect_profile_changes (previous.map SnapshotRow.toSnap) profile.toSnap
      let st2 := record_events (clock (k + 1)) profile.username events st1
      (true, st2, k + 2)

/-- The summary dictionary returned by `run_once`. -/
structure RunSummary where
  status : String
  accounts : Nat
  checked : Nat
  failed : Nat
deriving DecidableEq, Repr

/-- The busy summary returned when the run lock is already held. -/
def busySummary : RunSummary :=
  { status := "busy", accounts := 0, checked := 0, failed := 0 }

/-- `TikTokMonitorService` state: the non-blocking run lock, whether the
background thread is alive (`is_running`), the last-run bookkeeping and
the owned store. -/
structure ServiceState where
  run_lock_held : Bool
  thread_running : Bool
  last_run_started_at : Option String
  last_run_finished_at : Option String
  last_run_summary : Option RunSummary
  store : StoreState
deriving DecidableEq, Repr

/-- The per-account fold inside a cycle, threading the store, the
checked/failed counters and the clock index. -/
def cycleStep (fetch : String → FetchResult) (clock : Nat → String)
    (acc : StoreState × Nat × Nat × Nat) (row : AccountRow) : StoreState × Nat × Nat × Nat :=
  let (st, checked, failed, k) := acc
  let (ok, st1, k1) := check_account fetch clock k row.username st
  if ok then (st1, checked + 1, failed, k1) else (st1, checked, failed + 1, k1)

/-- `TikTokMonitorService.run_once`: a non-blocking try-acquire of the
run lock returns the busy summary at once, touching nothing; otherwise
the cycle stamps the start time, snapshots the active account list,
checks each account in order, stores the `ok` summary, and in the
`finally` block stamps the finish time and releases the lock. -/
def run_once (fetch : String → FetchResult) (clock : Nat → String)
    (svc : ServiceState) : RunSummary × ServiceState :=
  if svc.run_lock_held then (busySummary, svc)
  else
    let accounts := list_watch_accounts true svc.store
    let folded := accounts.foldl (cycleStep fetch clock) (svc.store, 0, 0, 1)
    let summary : RunSummary :=
      { status := "ok", accounts := accounts.length,
        checked := folded.2.1, failed := folded.2.2.1 }
    (summary,
     { svc with
         last_run_started_at := some (clock 0),
         last_run_finished_at := some (clock folded.2.2.2),
         last_run_summary := some summary,
         store := folded.1 })

/-! ## Dashboard actions (app.py) -/

/-- Flash outcome of a dashboard POST action. -/
inductive Flash where
  | success (msg : String)
  | error (msg : String)
deriving DecidableEq, Repr

/-- The `reset_monitor_data` branch of the index POST handler: rejected
with an error flash while the monitor thread is running, otherwise
`clear_monitor_data` plus a success flash. -/
def reset_monitor_data_action (svc : ServiceState) : Flash × ServiceState :=
  if svc.thread_running then
    (.error "Stop the monitor before clearing data.", svc)
  else
    (.success "All watchlist/history/events/failures data cleared.",
     { svc with store := clear_monitor_data svc.store })

/-- The `add_watch` branch of the index POST handler: normalize the
submitted handle; on a validation error flash it and leave the store
untouched, otherwise register the normalized handle. -/
def add_watch_action (now : String) (watch_username : String) (st : StoreState) :
    Flash × StoreState :=
  match normalize_username watch_username with
  | .error msg => (.error msg, st)
  | .ok normalized =>
      (.success s!"@{normalized} added to watchlist.", add_watch_account now normalized st)

/-! ## Fixtures -/

/-- A freshly initialized database. -/
def emptyStore : StoreState :=
  { watch_accounts := [], snapshots := [], events := [], failures := [],
    settings := [], next_snapshot_id := 1, next_event_id := 1, next_failure_id := 1 }

/-- A small populated database: `alice` active, `bob` deactivated with a
stale error, one tunable setting. -/
def sampleStore : StoreState :=
  { watch_accounts :=
      [{ username := "alice", created_at := "2026-01-01T00:00:00+00:00", active := true,
         last_checked_at := none, last_error := none },
       { username := "bob", created_at := "2026-01-01T00:00:00+00:00", active := false,
         last_checked_at := some "2026-01-02T00:00:00+00:00", last_error := some "boom" }],
    snapshots := [], events := [], failures := [],
    settings := [{ key := "monitor_interval_seconds", value := "900",
                   updated_at := "2026-01-01T00:00:00+00:00" }],
    next_snapshot_id := 1, next_event_id := 1, next_failure_id := 1 }

/-- A service whose run lock is currently held by an in-flight cycle. -/
def busySvc : ServiceState :=
  { run_lock_held := true, thread_running := true, last_run_started_at := some "t0",
    last_run_finished_at := none, last_run_summary := none, store := sampleStore }

/-- A service whose background thread is alive. -/
def runningSvc : ServiceState :=
  { run_lock_held := false, thread_running := true, last_run_started_at := none,
    last_run_finished_at := none, last_run_summary := none, store := sampleStore }

/-- A stopped service. -/
def stoppedSvc : ServiceState :=
  { run_lock_held := false, thread_running := false, last_run_started_at := none,
    last_run_finished_at := none, last_run_summary := none, store := sampleStore }

/-- A fetched profile for the deactivated handle `bob`. -/
def bobProfile : Profile :=
  { username := "bob", nickname := .vStr "Bob", bio := .vNone, verified := .vBool false,
    followers := .vInt 7, following := .vInt 1, likes := .vInt 3, videosCount := .vInt 2,
    profile_url := .vNone }

/-- A fetched profile for the never-seen handle `carol`. -/
def carolProfile : Profile :=
  { username := "carol", nickname := .vStr "Carol", bio := .vStr "hi", verified := .vBool true,
    followers := .vInt 42, following := .vInt 8, likes := .vInt 99, videosCount := .vInt 4,
    profile_url := .vStr "https://www.tiktok.com/@carol" }

/-- Baseline snapshot for the simultaneous-change ordering scenario. -/
def orderPrev : Snap :=
  { followers := .vInt 10, following := .vInt 5, likes := .vInt 100, videosCount := .vInt 3,
    nickname := .vStr "n", bio := .vStr "old bio", verified := .vBool false }

/-- Current snapshot changing followers, bio and verified at once. -/
def orderCur : Snap :=
  { followers := .vInt 20, following := .vInt 5, likes := .vInt 100, videosCount := .vInt 3,
    nickname := .vStr "n", bio := .vStr "new bio", verified := .vBool true }

/-- Baseline with an unparsable `likes` value. -/
def numPrev : Snap :=
  { followers := .vInt 1, following := .vInt 5, likes := .vStr "junk", videosCount := .vInt 3,
    nickname := .vStr "n", bio := .vStr "b", verified := .vBool false }

/-- Current snapshot: `followers` 1 to 2, `likes` textually different but
unparsable on the previous side. -/
def numCur : Snap :=
  { followers := .vInt 2, following := .vInt 5, likes := .vInt 7, videosCount := .vInt 3,
    nickname := .vStr "n", bio := .vStr "b", verified := .vBool false }

/-- Modelled from the claim's wording, for comparison with the source's
`normalize_username`: "the input stripped of a leading `@` and
lowercased" — one leading `@` removed, no whitespace stripping. The
source instead strips surrounding whitespace and every leading `@`. -/
def claim_normalized (s : String) : String :=
  pyLower (match s.toList with
           | '@' :: rest => String.mk rest
           | _ => s)

/-! ## Theorems -/

/-- C1: while the run guard is held, `run_once` returns the busy summary
immediately and the whole service state — store tables, last-run
timestamps and summary — is unchanged; the `"busy"` status distinguishes
the result from a completed cycle. -/
theorem run_once_busy (fetch : String → FetchResult) (clock : Nat → String)
    (svc : ServiceState) (h : svc.run_lock_held = true) :
    run_once fetch clock svc = (busySummary, svc) ∧ busySummary.status = "busy" := by
  constructor
  · simp [run_once, h]
  · rfl

/-- Witness for C1 at a concrete in-flight service. -/
theorem run_once_busy_witness :
    run_once (fun _ => FetchResult.scrapeError "net down") (fun _ => "t1") busySvc
      = (busySummary, busySvc) ∧ busySummary.status = "busy" :=
  run_once_busy (fun _ => FetchResult.scrapeError "net down") (fun _ => "t1") busySvc rfl

/-- C5 counterexample: `bob` exists but is already inactive, yet
`deactivate_watch_account` returns `true` — SQLite counts the matched
row as changed even though `active` was already 0 — where the claim
requires `false`. -/
theorem deactivate_claim_counterexample :
    (sampleStore.watch_accounts.find? (fun r => r.username == "bob")).map (fun r => r.active)
        = some false
    ∧ (deactivate_watch_account "bob" sampleStore).1 = true := by decide

/-- C5 (amended): `deactivate_watch_account` returns `true` iff a row for
the handle exists, active or not; for an unknown handle it returns
`false` and the database is untouched (no row is created); every row for
the handle ends inactive, no other row changes, and the other tables are
untouched. -/
theorem deactivate_spec (username : String) (st : StoreState) :
    (deactivate_watch_account username st).1
        = st.watch_accounts.any (fun r => r.username == username)
    ∧ (st.watch_accounts.any (fun r => r.username == username) = false →
        (deactivate_watch_account username st).2 = st)
    ∧ (∀ r ∈ (deactivate_watch_account username st).2.watch_accounts,
        r.username = username → r.active = false)
    ∧ (∀ r ∈ st.watch_accounts, r.username ≠ username →
        r ∈ (deactivate_watch_account username st).2.watch_accounts)
    ∧ (deactivate_watch_account username st).2.watch_accounts.length
        = st.watch_accounts.length
    ∧ (deactivate_watch_account username st).2.snapshots = st.snapshots
    ∧ (deactivate_watch_account username st).2.events = st.events
    ∧ (deactivate_watch_account username st).2.failures = st.failures
    ∧ (deactivate_watch_account username st).2.settings = st.settings := by
  refine ⟨rfl, ?_, ?_, ?_, ?_, rfl, rfl, rfl, rfl⟩
  · intro h
    have hmap : st.watch_accounts.map
        (fun r => if r.username == username then { r with active := false } else r)
          = st.watch_accounts := by
      have hall := List.any_eq_false.mp h
      calc st.watch_accounts.map
            (fun r => if r.username == username then { r with active := false } else r)
          = st.watch_accounts.map id := by
            apply List.map_congr_left
            intro a ha
            simp [hall a ha]
        _ = st.watch_accounts := List.map_id _
    show { st with watch_accounts :=
        (List.map (fun r => if r.username == username then { r with active := false } else r)
          st.watch_accounts) } = st
    rw [hmap]
  · intro r hr hu
    simp only [deactivate_watch_account, List.mem_map] at hr
    obtain ⟨a, _, rfl⟩ := hr
    by_cases hc : a.username == username
    · simp [hc]
    · simp only [hc, if_neg] at hu ⊢
      exact absurd (by simpa using hu) (by simpa using hc)
  · intro r hr hne
    simp only [deactivate_watch_account]
    have : (if r.username == username then { r with active := false } else r) = r := by
      simp [hne]
    exact this ▸ List.mem_map_of_mem _ hr
  · simp [deactivate_watch_account]

/-- Witness for C5 at the unknown handle `carol`: `false`, nothing
created, database identical. -/
theorem deactivate_spec_witness :
    (deactivate_watch_account "carol" sampleStore).1 = false
    ∧ (deactivate_watch_account "carol" sampleStore).2 = sampleStore := by
  have h := deactivate_spec "carol" sampleStore
  have hany : sampleStore.watch_accounts.any (fun r => r.username == "carol") = false := by decide
  exact ⟨h.1.trans hany, h.2.1 hany⟩

/-- C7: with no previous snapshot the detector reports nothing — the
first observation is a baseline, never a change. -/
theorem detect_no_previous (current : Snap) :
    detect_profile_changes none current = [] := rfl

/-- C9: a data reset is rejected with an error flash and no state change
while the monitor thread is running; when stopped, it clears all four
monitor tables in one step. -/
theorem reset_monitor_data_guarded (svc : ServiceState) :
    (svc.thread_running = true →
        reset_monitor_data_action svc
          = (Flash.error "Stop the monitor before clearing data.", svc))
    ∧ (svc.thread_running = false →
        (reset_monitor_data_action svc).2.store.watch_accounts = []
        ∧ (reset_monitor_data_action svc).2.store.snapshots = []
        ∧ (reset_monitor_data_action svc).2.store.events = []
        ∧ (reset_monitor_data_action svc).2.store.failures = []
        ∧ (reset_monitor_data_action svc).1
            = Flash.success "All watchlist/history/events/failures data cleared.") := by
  constructor
  · intro h; simp [reset_monitor_data_action, h]
  · intro h
    refine ⟨?_, ?_, ?_, ?_, ?_⟩ <;>
      simp [reset_monitor_data_action, h, clear_monitor_data]

/-- Witness for C9: rejected on a running service, all four tables empty
after resetting a stopped one with populated tables. -/
theorem reset_monitor_data_guarded_witness :
    reset_monitor_data_action runningSvc
        = (Flash.error "Stop the monitor before clearing data.", runningSvc)
    ∧ (reset_monitor_data_action stoppedSvc).2.store.watch_accounts = []
    ∧ (reset_monitor_data_action stoppedSvc).2.store.snapshots = []
    ∧ (reset_monitor_data_action stoppedSvc).2.store.events = []
    ∧ (reset_monitor_data_action stoppedSvc).2.store.failures = [] := by
  have h1 := (reset_monitor_data_guarded runningSvc).1 rfl
  have h2 := (reset_monitor_data_guarded stoppedSvc).2 rfl
  exact ⟨h1, h2.1, h2.2.1, h2.2.2.1, h2.2.2.2.1⟩

/-- C10: `clear_monitor_data` leaves the settings table — and therefore
every stored setting value — unchanged, while emptying exactly the four
monitor tables. -/
theorem clear_monitor_data_preserves_settings (st : StoreState) :
    (clear_monitor_data st).settings = st.settings
    ∧ (∀ key, get_setting key (clear_monitor_data st) = get_setting key st)
    ∧ (clear_monitor_data st).watch_accounts = []
    ∧ (clear_monitor_data st).snapshots = []
    ∧ (clear_monitor_data st).events = []
    ∧ (clear_monitor_data st).failures = [] :=
  ⟨rfl, fun _ => rfl, rfl, rfl, rfl, rfl⟩

/-! ### Registry bookkeeping lemmas -/

lemma mem_insertWatchIgnore (now u : String) {r : AccountRow} {rows : List AccountRow}
    (h : r ∈ rows) : r ∈ insertWatchIgnore now u rows := by
  unfold insertWatchIgnore
  split
  · exact h
  · exact List.mem_append_left _ h

lemma any_insertWatchIgnore (now u : String) (rows : List AccountRow) :
    (insertWatchIgnore now u rows).any (fun r => r.username == u) = true := by
  by_cases h : rows.any (fun r => r.username == u)
  · simp [insertWatchIgnore, h]
  · simp [insertWatchIgnore, h, List.any_append]

lemma find?_updateWatchChecked (now : String) (err : Option String) (u : String) :
    ∀ rows : List AccountRow, rows.any (fun r => r.username == u) = true →
      ∃ acc, (updateWatchChecked now err u rows).find? (fun r => r.username == u) = some acc
        ∧ acc.last_checked_at = some now ∧ acc.last_error = err := by
  intro rows
  induction rows with
  | nil => intro h; simp at h
  | cons r t ih =>
    intro h
    by_cases hu : r.username == u
    · refine ⟨{ r with last_checked_at := some now, last_error := err }, ?_, rfl, rfl⟩
      show ((if r.username == u then { r with last_checked_at := some now, last_error := err }
          else r) :: updateWatchChecked now err u t).find? (fun r => r.username == u) = _
      rw [if_pos hu]
      exact List.find?_cons_of_pos _ hu
    · have h' : t.any (fun r => r.username == u) = true := by
        simpa [List.any_cons, hu] using h
      obtain ⟨acc, hfind, h1, h2⟩ := ih h'
      refine ⟨acc, ?_, h1, h2⟩
      show ((if r.username == u then { r with last_checked_at := some now, last_error := err }
          else r) :: updateWatchChecked now err u t).find? (fun r => r.username == u) = _
      rw [if_neg (by simp [hu]), List.find?_cons_of_neg _ (by simp [hu])]
      exact hfind

lemma find?_update_insert (now : String) (err : Option String) (u : String)
    (rows : List AccountRow) :
    ∃ acc, (updateWatchChecked now err u (insertWatchIgnore now u rows)).find?
        (fun r => r.username == u) = some acc
      ∧ acc.last_checked_at = some now ∧ acc.last_error = err :=
  find?_updateWatchChecked now err u _ (any_insertWatchIgnore now u rows)

lemma find?_append_of_none {α : Type} {p : α → Bool} :
    ∀ l1 l2 : List α, l1.find? p = none → (l1 ++ l2).find? p = l2.find? p := by
  intro l1
  induction l1 with
  | nil => intro l2 _; rfl
  | cons a t ih =>
    intro l2 h
    by_cases hp : p a
    · rw [List.find?_cons_of_pos _ hp] at h; cases h
    · rw [List.find?_cons_of_neg _ hp] at h
      rw [List.cons_append, List.find?_cons_of_neg _ hp]
      exact ih l2 h

lemma find?_updateWatchChecked_none (now : String) (err : Option String) (u : String)
    (rows : List AccountRow) (h : rows.any (fun r => r.username == u) = false) :
    (updateWatchChecked now err u rows).find? (fun r => r.username == u) = none := by
  apply List.find?_eq_none.mpr
  intro x hx
  simp only [updateWatchChecked, List.mem_map] at hx
  obtain ⟨a, ha, rfl⟩ := hx
  have hne := List.any_eq_false.mp h a ha
  by_cases hc : a.username == u
  · exact absurd hc hne
  · simp [hc]

lemma find?_update_insert_new (now : String) (err : Option String) (u : String)
    (rows : List AccountRow) (h : rows.any (fun r => r.username == u) = false) :
    (updateWatchChecked now err u (insertWatchIgnore now u rows)).find?
        (fun r => r.username == u)
      = some { username := u, created_at := now, active := true,
               last_checked_at := some now, last_error := err } := by
  have hrows : insertWatchIgnore now u rows
      = rows ++ [{ username := u, created_at := now, active := true,
                   last_checked_at := none, last_error := none }] := by
    simp [insertWatchIgnore, h]
  have happ : updateWatchChecked now err u
      (rows ++ [{ username := u, created_at := now, active := true,
                  last_checked_at := none, last_error := none }])
      = updateWatchChecked now err u rows
        ++ updateWatchChecked now err u
            [{ username := u, created_at := now, active := true,
               last_checked_at := none, last_error := none }] :=
    List.map_append _ _ _
  rw [hrows, happ, find?_append_of_none _ _ (find?_updateWatchChecked_none now err u rows h)]
  simp [updateWatchChecked]

/-- C3: when the fetcher fails — classified or unexpected, uniformly
described by `fetchErrorText` — `check_account` returns failure (no
exception escapes the model, which is total), appends exactly one
failure record carrying the error text, writes no snapshot and no
events, and the registry entry for the handle carries that text as
`last_error` with `last_checked_at` updated to the failure timestamp. -/
theorem check_account_fetch_failure (fetch : String → FetchResult) (clock : Nat → String)
    (k : Nat) (username : String) (st : StoreState) (txt : String)
    (h : fetchErrorText (fetch username) = some txt) :
    (check_account fetch clock k username st).1 = false
    ∧ (check_account fetch clock k username st).2.1.failures
        = st.failures ++ [{ id := st.next_failure_id, username := username,
                            checked_at := clock k, error := txt }]
    ∧ (check_account fetch clock k username st).2.1.snapshots = st.snapshots
    ∧ (check_account fetch clock k username st).2.1.events = st.events
    ∧ ∃ acc, ((check_account fetch clock k username st).2.1.watch_accounts.find?
          (fun r => r.username == username)) = some acc
        ∧ acc.last_error = some txt ∧ acc.last_checked_at = some (clock k) := by
  cases hf : fetch username with
  | ok p => rw [hf] at h; simp [fetchErrorText] at h
  | scrapeError m =>
      rw [hf] at h
      simp only [fetchErrorText, Option.some.injEq] at h
      subst h
      refine ⟨?_, ?_, ?_, ?_, ?_⟩
      · simp [check_account, hf]
      · simp [check_account, hf, record_failure]
      · simp [check_account, hf, record_failure]
      · simp [check_account, hf, record_failure]
      · simp only [check_account, hf]
        obtain ⟨acc, hfind, hch, herr⟩ :=
          find?_update_insert (clock k) (some m) username st.watch_accounts
        exact ⟨acc, hfind, herr, hch⟩
  | unexpected cls m =>
      rw [hf] at h
      simp only [fetchErrorText, Option.some.injEq] at h
      subst h
      refine ⟨?_, ?_, ?_, ?_, ?_⟩
      · simp [check_account, hf]
      · simp [check_account, hf, record_failure]
      · simp [check_account, hf, record_failure]
      · simp [check_account, hf, record_failure]
      · simp only [check_account, hf]
        obtain ⟨acc, hfind, hch, herr⟩ :=
          find?_update_insert (clock k) (some s!"{cls}: {m}") username st.watch_accounts
        exact ⟨acc, hfind, herr, hch⟩

/-- Witness for C3: a classified failure for `bob` on the populated
store, with the exact message persisted and no snapshot written. -/
theorem check_account_fetch_failure_witness :
    (check_account (fun _ => FetchResult.scrapeError "Could not read profile payload.")
        (fun _ => "t3") 0 "bob" sampleStore).1 = false
    ∧ (check_account (fun _ => FetchResult.scrapeError "Could not read profile payload.")
        (fun _ => "t3") 0 "bob" sampleStore).2.1.failures
        = sampleStore.failures
            ++ [{ id := 1, username := "bob", checked_at := "t3",
                  error := "Could not read profile payload." }]
    ∧ (check_account (fun _ => FetchResult.scrapeError "Could not read profile payload.")
        (fun _ => "t3") 0 "bob" sampleStore).2.1.snapshots = sampleStore.snapshots := by
  have h := check_account_fetch_failure
    (fun _ => FetchResult.scrapeError "Could not read profile payload.")
    (fun _ => "t3") 0 "bob" sampleStore "Could not read profile payload." rfl
  exact ⟨h.1, h.2.1, h.2.2.1⟩

/-- C4 counterexample: `bob` is registered but deactivated; saving a
snapshot for `bob` appends the snapshot row yet leaves the registry row
inactive (`ON CONFLICT ... DO NOTHING`), where the claim requires
`active = true` even for a previously deactivated handle. -/
theorem save_snapshot_claim_counterexample :
    ((save_snapshot "t9" bobProfile sampleStore).watch_accounts.find?
        (fun r => r.username == "bob")).map (fun r => r.active) = some false
    ∧ (save_snapshot "t9" bobProfile sampleStore).snapshots.length
        = sampleStore.snapshots.length + 1 := by decide

/-- C4 (amended): `save_snapshot` appends exactly one snapshot row
stamped at write time; the registry entry for the handle gets the same
timestamp as `last_checked_at` and its `last_error` cleared in the same
atomic transition; a never-seen handle is registered active, while an
existing entry — including a deactivated one — keeps its `active` flag
and creation time; rows of other handles and the other tables are
untouched. -/
theorem save_snapshot_spec (now : String) (profile : Profile) (st : StoreState) :
    (∃ row : SnapshotRow, (save_snapshot now profile st).snapshots = st.snapshots ++ [row]
        ∧ row.username = profile.username ∧ row.checked_at = now)
    ∧ (∃ acc, ((save_snapshot now profile st).watch_accounts.find?
          (fun r => r.username == profile.username)) = some acc
        ∧ acc.last_checked_at = some now ∧ acc.last_error = none
        ∧ (st.watch_accounts.any (fun r => r.username == profile.username) = false →
            acc.active = true))
    ∧ (∀ r ∈ st.watch_accounts, ∃ r' ∈ (save_snapshot now profile st).watch_accounts,
        r'.username = r.username ∧ r'.active = r.active ∧ r'.created_at = r.created_at)
    ∧ (∀ r ∈ st.watch_accounts, r.username ≠ profile.username →
        r ∈ (save_snapshot now profile st).watch_accounts)
    ∧ (save_snapshot now profile st).events = st.events
    ∧ (save_snapshot now profile st).failures = st.failures
    ∧ (save_snapshot now profile st).settings = st.settings := by
  refine ⟨⟨_, rfl, rfl, rfl⟩, ?_, ?_, ?_, rfl, rfl, rfl⟩
  · rcases Bool.eq_false_or_eq_true
        (st.watch_accounts.any (fun r => r.username == profile.username)) with hany | hany
    · obtain ⟨acc, hfind, hch, herr⟩ :=
        find?_update_insert now none profile.username st.watch_accounts
      exact ⟨acc, hfind, hch, herr, fun hcontra => absurd hany (by simp [hcontra])⟩
    · refine ⟨_, find?_update_insert_new now none profile.username st.watch_accounts hany,
        rfl, rfl, fun _ => rfl⟩
  · intro r hr
    by_cases hc : r.username == profile.username
    · have hm : (if r.username == profile.username then
            { r with last_checked_at := some now, last_error := (none : Option String) }
          else r) ∈ List.map
            (fun r => if r.username == profile.username then
                { r with last_checked_at := some now, last_error := (none : Option String) }
              else r)
            (insertWatchIgnore now profile.username st.watch_accounts) :=
        List.mem_map_of_mem _ (mem_insertWatchIgnore now profile.username hr)
      rw [if_pos hc] at hm
      exact ⟨_, hm, rfl, rfl, rfl⟩
    · have hm : (if r.username == profile.username then
            { r with last_checked_at := some now, last_error := (none : Option String) }
          else r) ∈ List.map
            (fun r => if r.username == profile.username then
                { r with last_checked_at := some now, last_error := (none : Option String) }
              else r)
            (insertWatchIgnore now profile.username st.watch_accounts) :=
        List.mem_map_of_mem _ (mem_insertWatchIgnore now profile.username hr)
      rw [if_neg hc] at hm
      exact ⟨r, hm, rfl, rfl, rfl⟩
  · intro r hr hne
    have hc : ¬((r.username == profile.username) = true) := by simp [hne]
    have hm : (if r.username == profile.username then
          { r with last_checked_at := some now, last_error := (none : Option String) }
        else r) ∈ List.map
          (fun r => if r.username == profile.username then
              { r with last_checked_at := some now, last_error := (none : Option String) }
            else r)
          (insertWatchIgnore now profile.username st.watch_accounts) :=
      List.mem_map_of_mem _ (mem_insertWatchIgnore now profile.username hr)
    rw [if_neg hc] at hm
    exact hm

/-- Witness for C4: saving the first snapshot for the never-seen handle
`carol` both appends the snapshot row and registers `carol` active with
cleared error and matching timestamp. -/
theorem save_snapshot_spec_witness :
    (∃ row : SnapshotRow, (save_snapshot "t4" carolProfile sampleStore).snapshots
        = sampleStore.snapshots ++ [row] ∧ row.username = "carol" ∧ row.checked_at = "t4")
    ∧ (∃ acc, ((save_snapshot "t4" carolProfile sampleStore).watch_accounts.find?
          (fun r => r.username == "carol")) = some acc
        ∧ acc.last_checked_at = some "t4" ∧ acc.last_error = none ∧ acc.active = true) := by
  have h := save_snapshot_spec "t4" carolProfile sampleStore
  obtain ⟨hsnap, ⟨acc, hfind, hch, herr, hact⟩, _⟩ := h
  exact ⟨hsnap, acc, hfind, hch, herr, hact (by decide)⟩

/-! ### Change-detector lemmas -/

lemma numeric_event_metric (p c : Snap) (s : String) (e : Event)
    (h : numeric_event p c s = some e) : e.metric = s := by
  cases ha : as_int (Snap.get p s) with
  | none => simp [numeric_event, ha] at h
  | some a =>
    cases hb : as_int (Snap.get c s) with
    | none => simp [numeric_event, ha, hb] at h
    | some b =>
      by_cases hab : a == b
      · simp [numeric_event, ha, hb, hab] at h
      · simp only [numeric_event, ha, hb] at h
        rw [if_neg hab] at h
        simp only [Option.some.injEq] at h
        rw [← h]

lemma text_event_metric (p c : Snap) (s : String) (e : Event)
    (h : text_event p c s = some e) : e.metric = s := by
  by_cases hc : pyEq (Snap.get p s) (Snap.get c s)
  · simp [text_event, hc] at h
  · simp only [text_event] at h
    rw [if_neg hc] at h
    simp only [Option.some.injEq] at h
    rw [← h]

lemma bool_event_metric (p c : Snap) (s : String) (e : Event)
    (h : bool_event p c s = some e) : e.metric = s := by
  by_cases hc : truthy (Snap.get p s) == truthy (Snap.get c s)
  · simp [bool_event, hc] at h
  · simp only [bool_event] at h
    rw [if_neg hc] at h
    simp only [Option.some.injEq] at h
    rw [← h]

lemma map_metric_filterMap_sublist {k : String → Option Event}
    (hk : ∀ s e, k s = some e → e.metric = s) :
    ∀ l : List String, ((l.filterMap k).map Event.metric).Sublist l := by
  intro l
  induction l with
  | nil => simp
  | cons a t ih =>
    cases hka : k a with
    | none =>
      simp only [List.filterMap_cons, hka]
      exact ih.cons a
    | some e =>
      simp only [List.filterMap_cons, hka, List.map_cons, hk a e hka]
      exact List.Sublist.cons₂ a ih

lemma filter_metric_filterMap_not_mem {k : String → Option Event}
    (hk : ∀ s e, k s = some e → e.metric = s) (f : String) :
    ∀ l : List String, f ∉ l → ((l.filterMap k).filter (fun e => e.metric == f)) = [] := by
  intro l
  induction l with
  | nil => intro _; rfl
  | cons a t ih =>
    intro hna
    have hfa : f ≠ a := fun hh => hna (hh ▸ List.mem_cons_self a t)
    have hft : f ∉ t := fun hh => hna (List.mem_cons_of_mem a hh)
    cases hka : k a with
    | none =>
      simp only [List.filterMap_cons, hka]
      exact ih hft
    | some e =>
      have hbe : (e.metric == f) = false := by
        rw [hk a e hka, beq_eq_false_iff_ne]
        exact fun hh => hfa hh.symm
      simp only [List.filterMap_cons, hka, List.filter_cons, hbe, Bool.false_eq_true,
        if_false]
      exact ih hft

lemma filter_metric_filterMap_mem {k : String → Option Event}
    (hk : ∀ s e, k s = some e → e.metric = s) (f : String) :
    ∀ l : List String, l.Nodup → f ∈ l →
      ((l.filterMap k).filter (fun e => e.metric == f)) = (k f).toList := by
  intro l
  induction l with
  | nil => intro _ hf; cases hf
  | cons a t ih =>
    intro hnd hf
    rw [List.nodup_cons] at hnd
    obtain ⟨hat, hndt⟩ := hnd
    rcases List.mem_cons.mp hf with rfl | hft
    · cases hka : k f with
      | none =>
        simp only [List.filterMap_cons, hka]
        rw [filter_metric_filterMap_not_mem hk f t hat]
        simp [hka]
      | some e =>
        have hbe : (e.metric == f) = true := by
          rw [hk f e hka]
          exact beq_self_eq_true f
        simp only [List.filterMap_cons, hka, List.filter_cons, hbe, if_true]
        rw [filter_metric_filterMap_not_mem hk f t hat]
        simp [hka]
    · have hfa : f ≠ a := fun hh => hat (hh ▸ hft)
      cases hka : k a with
      | none =>
        simp only [List.filterMap_cons, hka]
        exact ih hndt hft
      | some e =>
        have hbe : (e.metric == f) = false := by
          rw [hk a e hka, beq_eq_false_iff_ne]
          exact fun hh => hfa hh.symm
        simp only [List.filterMap_cons, hka, List.filter_cons, hbe, Bool.false_eq_true,
          if_false]
        exact ih hndt hft

lemma detect_filter_numeric (p c : Snap) (f : String) (h1 : f ∈ NUMERIC_FIELDS)
    (h2 : f ∉ TEXT_FIELDS) (h3 : f ∉ BOOLEAN_FIELDS) :
    (detect_profile_changes (some p) c).filter (fun e => e.metric == f)
      = (numeric_event p c f).toList := by
  have hrw : detect_profile_changes (some p) c
      = (NUMERIC_FIELDS.filterMap (numeric_event p c)
          ++ TEXT_FIELDS.filterMap (text_event p c))
        ++ BOOLEAN_FIELDS.filterMap (bool_event p c) := rfl
  rw [hrw, List.filter_append, List.filter_append]
  rw [filter_metric_filterMap_mem (fun s e h => numeric_event_metric p c s e h) f
        NUMERIC_FIELDS (by decide) h1,
      filter_metric_filterMap_not_mem (fun s e h => text_event_metric p c s e h) f
        TEXT_FIELDS h2,
      filter_metric_filterMap_not_mem (fun s e h => bool_event_metric p c s e h) f
        BOOLEAN_FIELDS h3]
  simp

/-- C6: the metrics of the events returned by the detector always form a
subsequence of the fixed field-evaluation order — numeric fields in
declared order, then text fields, then the boolean field — and in the
concrete scenario where followers, bio and verified change at once, the
output order is exactly [followers, bio, verified]. -/
theorem detect_event_order :
    (∀ (p c : Snap), ((detect_profile_changes (some p) c).map Event.metric).Sublist
        ["followers", "following", "likes", "videos_count", "nickname", "bio", "verified"])
    ∧ (detect_profile_changes (some orderPrev) orderCur).map Event.metric
        = ["followers", "bio", "verified"] := by
  constructor
  · intro p c
    have h1 := map_metric_filterMap_sublist
      (fun s e h => numeric_event_metric p c s e h) NUMERIC_FIELDS
    have h2 := map_metric_filterMap_sublist
      (fun s e h => text_event_metric p c s e h) TEXT_FIELDS
    have h3 := map_metric_filterMap_sublist
      (fun s e h => bool_event_metric p c s e h) BOOLEAN_FIELDS
    have hrw : detect_profile_changes (some p) c
        = (NUMERIC_FIELDS.filterMap (numeric_event p c)
            ++ TEXT_FIELDS.filterMap (text_event p c))
          ++ BOOLEAN_FIELDS.filterMap (bool_event p c) := rfl
    rw [hrw, List.map_append, List.map_append]
    exact (h1.append h2).append h3
  · decide

/-- C2: for every pair of snapshots and every numeric field, if either
side fails to parse as an integer the detector emits no event for that
metric, and if both parse to distinct integers `a` and `b` it emits
exactly one event for that metric with `old_value = a`, `new_value = b`
and `delta = b - a`. -/
theorem detect_numeric_field (p c : Snap) (f : String) (hf : f ∈ NUMERIC_FIELDS) :
    ((as_int (Snap.get p f) = none ∨ as_int (Snap.get c f) = none) →
        (detect_profile_changes (some p) c).filter (fun e => e.metric == f) = [])
    ∧ (∀ a b : Int, as_int (Snap.get p f) = some a → as_int (Snap.get c f) = some b →
        a ≠ b →
        ∃ ev, (detect_profile_changes (some p) c).filter (fun e => e.metric == f) = [ev]
          ∧ ev.metric = f ∧ ev.old_value = .vInt a ∧ ev.new_value = .vInt b
          ∧ ev.delta = some (b - a)) := by
  have hmem : f = "followers" ∨ f = "following" ∨ f = "likes" ∨ f = "videos_count" := by
    simpa [NUMERIC_FIELDS] using hf
  have h2 : f ∉ TEXT_FIELDS := by
    rcases hmem with rfl | rfl | rfl | rfl <;> decide
  have h3 : f ∉ BOOLEAN_FIELDS := by
    rcases hmem with rfl | rfl | rfl | rfl <;> decide
  have hdf := detect_filter_numeric p c f hf h2 h3
  constructor
  · intro hor
    rw [hdf]
    rcases hor with ha | hb
    · simp [numeric_event, ha]
    · cases hap : as_int (Snap.get p f) with
      | none => simp [numeric_event, hap]
      | some a => simp [numeric_event, hap, hb]
  · intro a b ha hb hab
    have hab' : (a == b) = false := beq_eq_false_iff_ne.mpr hab
    have hne : numeric_event p c f
        = some { metric := f, old_value := .vInt a, new_value := .vInt b,
                 delta := some (b - a),
                 message := s!"{f} changed from {a} to {b} ({pySigned (b - a)})." } := by
      simp [numeric_event, ha, hb, hab']
    rw [hdf, hne]
    exact ⟨_, rfl, rfl, rfl, rfl, rfl⟩

/-- Witness for C2: between `numPrev` and `numCur` the unparsable
`likes` pair produces no event despite the textual difference, while
`followers` going 1 to 2 produces exactly one event with delta 1. -/
theorem detect_numeric_field_witness :
    (detect_profile_changes (some numPrev) numCur).filter (fun e => e.metric == "likes") = []
    ∧ ∃ ev, (detect_profile_changes (some numPrev) numCur).filter
          (fun e => e.metric == "followers") = [ev]
        ∧ ev.metric = "followers" ∧ ev.old_value = .vInt 1 ∧ ev.new_value = .vInt 2
        ∧ ev.delta = some (2 - 1) := by
  have h1 := detect_numeric_field numPrev numCur "likes" (by decide)
  have h2 := detect_numeric_field numPrev numCur "followers" (by decide)
  exact ⟨h1.1 (Or.inl (by decide)), h2.2 1 2 (by decide) (by decide) (by decide)⟩

/-- C8 counterexample: on the input `"@@ab"` the normalized form under
the claim's wording is `"@ab"`, which does not match the handle pattern,
so the claim demands rejection — but the source strips every leading `@`
and accepts the input, returning `"ab"`. -/
theorem normalize_username_claim_counterexample :
    normalize_username "@@ab" = Except.ok "ab"
    ∧ fullmatchHandle (claim_normalized "@@ab") = false := ⟨rfl, rfl⟩

/-- C8 (amended): normalization returns the input stripped of
surrounding whitespace and of every leading `@`, lowercased, exactly
when that result matches `[A-Za-z0-9._]{2,24}`; any input whose
so-normalized form does not match is rejected with a validation error
and the `add_watch` action persists nothing for it. -/
theorem normalize_username_spec (s : String) :
    (∀ r, normalize_username s = Except.ok r →
        r = pyLower (pyLstripAt (pyStrip s)) ∧ fullmatchHandle r = true)
    ∧ (fullmatchHandle (pyLower (pyLstripAt (pyStrip s))) = false →
        ∀ now st, add_watch_action now s st
          = (Flash.error "Please enter a valid TikTok username.", st))
    ∧ (fullmatchHandle (pyLower (pyLstripAt (pyStrip s))) = true →
        normalize_username s = Except.ok (pyLower (pyLstripAt (pyStrip s)))) := by
  refine ⟨?_, ?_, ?_⟩
  · intro r hr
    simp only [normalize_username] at hr
    by_cases hm : fullmatchHandle (pyLower (pyLstripAt (pyStrip s)))
    · rw [if_pos hm] at hr
      simp only [Except.ok.injEq] at hr
      exact ⟨hr.symm, hr ▸ hm⟩
    · rw [if_neg hm] at hr
      simp at hr
  · intro hm now st
    have hok : normalize_username s = Except.error "Please enter a valid TikTok username." := by
      simp only [normalize_username]
      rw [if_neg (by simp [hm])]
    simp [add_watch_action, hok]
  · intro hm
    simp only [normalize_username]
    rw [if_pos hm]

/-- Witness for C8: a malformed handle is rejected leaving the store
untouched; a well-formed handle with surrounding whitespace, a leading
`@` and capitals normalizes to its canonical lowercase form. -/
theorem normalize_username_spec_witness :
    add_watch_action "t0" "@Bad Handle!" sampleStore
        = (Flash.error "Please enter a valid TikTok username.", sampleStore)
    ∧ normalize_username " @Alice " = Except.ok "alice" := by
  have h1 := (normalize_username_spec "@Bad Handle!").2.1 (by decide) "t0" sampleStore
  have h2 := (normalize_username_spec " @Alice ").2.2 (by decide)
  exact ⟨h1, h2⟩
